import Mathlib

/-!
Shallow embedding of `src/main.py` (configuration loader / CLI merger /
validator prototype) and proofs about it.

Modelling choices:
* JSON scalar values become the inductive `CM.Value`; a configuration
  (Python `Dict[str, Any]` produced by `json.load`) becomes an association
  list `CM.Config` with first-match lookup and in-place-replacing insert,
  mirroring Python dict subscript assignment.
* `argparse.Namespace` becomes the record `CM.CliArgs`: the four free-form
  string flags are `Option String` (absent = `none`, as in argparse with no
  default), the four `store_true` flags are `Bool`.
* Python truthiness (`if cli_args.package_name:`, `if config["test_repository_mode"]:`)
  is modelled by `CM.strOptTruthy` and `CM.Value.truthy`.
* The filesystem seen by `load_configuration` / `create_default_config` is an
  association list from path to `CM.FileData`: a file either parses as a JSON
  object, fails JSON parsing with some decoder message, or raises some other
  I/O error on read.
-/

namespace CM

/-- JSON-compatible scalar values a configuration mapping can hold. -/
inductive Value where
  | str (s : String)
  | bool (b : Bool)
  | int (n : Int)
  | null
  deriving DecidableEq, Repr

/-- Python truthiness of a JSON scalar, as used by `if config["test_repository_mode"]:`. -/
def Value.truthy : Value → Bool
  | .str s => !s.isEmpty
  | .bool b => b
  | .int n => n != 0
  | .null => false

/-- Configuration mapping: Python dict from field name to value. -/
abbrev Config := List (String × Value)

/-- First-match lookup, Python `config[k]` / `k in config`. -/
def lookupKey : Config → String → Option Value
  | [], _ => none
  | (k', v) :: rest, k => if k' = k then some v else lookupKey rest k

/-- Python `k in config`. -/
def hasKey (c : Config) (k : String) : Bool :=
  (lookupKey c k).isSome

/-- Python `config[k]` where the key is known to be present (defaulting to `null`
otherwise; `validate_configuration` only subscripts keys it has checked). -/
def getVal (c : Config) (k : String) : Value :=
  (lookupKey c k).getD Value.null

/-- Python dict assignment `config[k] = v`: replaces the value in place if the
key is present, otherwise appends the new entry at the end. -/
def setKey : Config → String → Value → Config
  | [], k, v => [(k, v)]
  | (k', v') :: rest, k, v =>
      if k' = k then (k, v) :: rest else (k', v') :: setKey rest k v

/-- Parsed command-line arguments (`argparse.Namespace` from `setup_cli_parser`). -/
structure CliArgs where
  package_name : Option String
  repository_url : Option String
  output_filename : Option String
  package_filter : Option String
  ascii_tree : Bool
  no_ascii_tree : Bool
  test_mode : Bool
  no_test_mode : Bool
  deriving DecidableEq, Repr

/-- CLI arguments with nothing supplied: every free-form flag absent, every
boolean flag false (argparse defaults when no flag is passed). -/
def emptyCliArgs : CliArgs :=
  { package_name := none
    repository_url := none
    output_filename := none
    package_filter := none
    ascii_tree := false
    no_ascii_tree := false
    test_mode := false
    no_test_mode := false }

/-- Python truthiness of an `Optional[str]`: `None` and `""` are falsy. -/
def strOptTruthy : Option String → Bool
  | none => false
  | some s => !s.isEmpty

/-- Embedding of `merge_configs` (src/main.py lines 67-90): copy the file
mapping, then apply each CLI override in source order. -/
def merge_configs (file_config : Config) (cli_args : CliArgs) : Config :=
  let config := file_config
  let config :=
    match cli_args.package_name with
    | some s => if s.isEmpty then config else setKey config "package_name" (Value.str s)
    | none => config
  let config :=
    match cli_args.repository_url with
    | some s => if s.isEmpty then config else setKey config "repository_url" (Value.str s)
    | none => config
  let config :=
    match cli_args.output_filename with
    | some s => if s.isEmpty then config else setKey config "output_filename" (Value.str s)
    | none => config
  let config :=
    match cli_args.package_filter with
    | some s => setKey config "package_filter" (Value.str s)
    | none => config
  let config := if cli_args.ascii_tree then setKey config "ascii_tree_output" (Value.bool true) else config
  let config := if cli_args.no_ascii_tree then setKey config "ascii_tree_output" (Value.bool false) else config
  let config := if cli_args.test_mode then setKey config "test_repository_mode" (Value.bool true) else config
  let config := if cli_args.no_test_mode then setKey config "test_repository_mode" (Value.bool false) else config
  config

/-- Validation failures, one constructor per `raise ValueError` site of
`validate_configuration` (src/main.py lines 38, 41, 45, 49). -/
inductive ValidationError where
  | missingRequired (param : String)
  | invalidPackageName
  | missingTestRepositoryPath
  | invalidRepositoryUrl
  deriving DecidableEq, Repr

/-- Error message attached at each raise site of `validate_configuration`. -/
def ValidationError.message : ValidationError → String
  | .missingRequired param => "Отсутствует обязательный параметр: " ++ param
  | .invalidPackageName => "Имя пакета должно быть непустой строкой"
  | .missingTestRepositoryPath => "В режиме тестового репозитория должен быть указан test_repository_path"
  | .invalidRepositoryUrl => "URL репозитория должен быть непустой строкой"

/-- The fixed required-parameter list of `validate_configuration` (src/main.py line 34). -/
def required_params : List String :=
  ["package_name", "repository_url", "test_repository_mode", "output_filename", "ascii_tree_output"]

/-- The presence-check loop of `validate_configuration` (src/main.py lines 36-38):
raises on the first parameter not in the mapping. -/
def checkRequired (config : Config) : List String → Except ValidationError Unit
  | [] => Except.ok ()
  | p :: rest =>
      if hasKey config p then checkRequired config rest
      else Except.error (ValidationError.missingRequired p)

/-- Python `str.strip()`: drop leading and trailing whitespace characters. -/
def pyStrip (s : String) : String :=
  String.mk (((s.data.dropWhile Char.isWhitespace).reverse.dropWhile Char.isWhitespace).reverse)

/-- Python `isinstance(v, str) and v.strip()`: a string that is non-empty after
stripping surrounding whitespace. -/
def isNonBlankStr : Value → Bool
  | .str s => !(pyStrip s).isEmpty
  | _ => false

/-- Embedding of `validate_configuration` (src/main.py lines 32-49): presence
checks in fixed order, then `package_name` shape, then the branch on the
truthiness of `test_repository_mode`. Raising becomes returning `Except.error`. -/
def validate_configuration (config : Config) : Except ValidationError Unit :=
  match checkRequired config required_params with
  | Except.error e => Except.error e
  | Except.ok _ =>
    if !(isNonBlankStr (getVal config "package_name")) then
      Except.error ValidationError.invalidPackageName
    else if (getVal config "test_repository_mode").truthy then
      if !(hasKey config "test_repository_path") then
        Except.error ValidationError.missingTestRepositoryPath
      else
        Except.ok ()
    else
      if !(isNonBlankStr (getVal config "repository_url")) then
        Except.error ValidationError.invalidRepositoryUrl
      else
        Except.ok ()

/-- State-passing reading of `validate_configuration`: the source only reads the
dict (`in` tests and subscripts, no assignment), so the configuration that
accompanies the result is the input mapping itself. -/
def validate_configuration_st (config : Config) : Except ValidationError Unit × Config :=
  (validate_configuration config, config)

/-- The hard-coded default mapping of `create_default_config` (src/main.py lines 53-61),
in source key order. -/
def default_config : Config :=
  [("package_name", Value.str "example-package"),
   ("repository_url", Value.str "https://github.com/example/repo"),
   ("test_repository_mode", Value.bool false),
   ("test_repository_path", Value.str "./test-repo"),
   ("output_filename", Value.str "dependency_graph.png"),
   ("ascii_tree_output", Value.bool true),
   ("package_filter", Value.str "")]

/-- Observable contents of a file, as far as `load_configuration` can tell:
either it parses as a JSON object, or `json.load` fails with a decoder message,
or reading raises some other I/O error. -/
inductive FileData where
  | json (c : Config)
  | invalid (msg : String)
  | ioFail (msg : String)
  deriving DecidableEq, Repr

/-- Filesystem: mapping from path to file contents; a path not in the mapping
does not exist. -/
abbrev FS := List (String × FileData)

/-- First-match lookup of a path in the filesystem. -/
def fsLookup : FS → String → Option FileData
  | [], _ => none
  | (p', d) :: rest, p => if p' = p then some d else fsLookup rest p

/-- Write (create or overwrite) a file. -/
def fsWrite : FS → String → FileData → FS
  | [], p, d => [(p, d)]
  | (p', d') :: rest, p, d =>
      if p' = p then (p, d) :: rest else (p', d') :: fsWrite rest p d

/-- Load failures of `load_configuration`, one constructor per raise site
(src/main.py lines 18, 28, 30): `FileNotFoundError`, the `ValueError` wrapping
a JSON decode failure, and the `RuntimeError` wrapping any other exception. -/
inductive LoadError where
  | notFound (message : String)
  | parse (message : String)
  | other (message : String)
  deriving DecidableEq, Repr

/-- Embedding of `load_configuration` (src/main.py lines 14-30): missing path
raises `FileNotFoundError`; a JSON decode failure is re-raised as `ValueError`
carrying the decoder message; any other exception is re-raised as `RuntimeError`;
otherwise the parsed mapping is returned verbatim. -/
def load_configuration (fs : FS) (config_file : String) : Except LoadError Config :=
  match fsLookup fs config_file with
  | none =>
      Except.error (LoadError.notFound
        ("Конфигурационный файл '" ++ config_file ++ "' не найден"))
  | some (FileData.json c) => Except.ok c
  | some (FileData.invalid msg) =>
      Except.error (LoadError.parse
        ("Ошибка парсинга JSON в файле '" ++ config_file ++ "': " ++ msg))
  | some (FileData.ioFail msg) =>
      Except.error (LoadError.other
        ("Неожиданная ошибка при загрузке конфигурации: " ++ msg))

/-- Embedding of `create_default_config` (src/main.py lines 51-65): writes the
default mapping as JSON to the given path, overwriting any existing file.
Python `json.dump` followed by `json.load` reproduces this mapping exactly, so
the written file is recorded in already-parsed form. -/
def create_default_config (fs : FS) (config_file : String) : FS :=
  fsWrite fs config_file (FileData.json default_config)

/-- All required parameters are present in the mapping. -/
def requiredPresent (c : Config) : Bool :=
  required_params.all (fun p => hasKey c p)

/-- The six configuration keys `merge_configs` can override from the CLI. -/
def overrideTargets : List String :=
  ["package_name", "repository_url", "output_filename", "package_filter",
   "ascii_tree_output", "test_repository_mode"]

/-- The configuration keys `validate_configuration` inspects. -/
def validatedKeys : List String :=
  required_params ++ ["test_repository_path"]

/-- Sample mapping missing both `package_name` and `output_filename`. -/
def cMissingBoth : Config :=
  [("repository_url", Value.str "https://example.com/repo"),
   ("test_repository_mode", Value.bool false),
   ("ascii_tree_output", Value.bool true)]

/-- Sample mapping whose `repository_url` is the non-empty but whitespace-only
string `" "`; all required fields are present and `package_name` is valid. -/
def cBlankUrl : Config :=
  [("package_name", Value.str "pkg"),
   ("repository_url", Value.str " "),
   ("test_repository_mode", Value.bool false),
   ("output_filename", Value.str "graph.png"),
   ("ascii_tree_output", Value.bool true)]

/-- Sample mapping with `test_repository_mode = true` and no `test_repository_path`. -/
def cTestMissing : Config :=
  [("package_name", Value.str "pkg"),
   ("repository_url", Value.str "https://example.com/repo"),
   ("test_repository_mode", Value.bool true),
   ("output_filename", Value.str "graph.png"),
   ("ascii_tree_output", Value.bool true)]

/-- Sample mapping that passes validation, carrying an extra unknown key. -/
def cOkConfig : Config :=
  [("package_name", Value.str "pkg"),
   ("repository_url", Value.str "https://example.com/repo"),
   ("test_repository_mode", Value.bool false),
   ("output_filename", Value.str "graph.png"),
   ("ascii_tree_output", Value.bool true),
   ("extra_key", Value.int 7)]

/-- Sample mapping whose `test_repository_mode` is the truthy non-boolean
string `"yes"`, with no `test_repository_path`. -/
def cTruthyStr : Config :=
  [("package_name", Value.str "pkg"),
   ("repository_url", Value.str "https://example.com/repo"),
   ("test_repository_mode", Value.str "yes"),
   ("output_filename", Value.str "graph.png"),
   ("ascii_tree_output", Value.bool true)]

/-- Sample mapping whose `test_repository_mode` is the falsy non-boolean `0`. -/
def cFalsyInt : Config :=
  [("package_name", Value.str "pkg"),
   ("repository_url", Value.str "https://example.com/repo"),
   ("test_repository_mode", Value.int 0),
   ("output_filename", Value.str "graph.png"),
   ("ascii_tree_output", Value.bool true)]

/-- Sample CLI arguments exercising every override. -/
def fullCliArgs : CliArgs :=
  { package_name := some "b"
    repository_url := some "https://cli.example.com/repo"
    output_filename := some "cli.png"
    package_filter := some ""
    ascii_tree := true
    no_ascii_tree := false
    test_mode := false
    no_test_mode := true }

/-- Sample filesystem with a well-formed config file, a malformed one, and one
whose read fails with a non-JSON I/O error. -/
def demoFS : FS :=
  [("good.json", FileData.json cOkConfig),
   ("bad.json", FileData.invalid "Expecting value: line 1 column 1 (char 0)"),
   ("locked.json", FileData.ioFail "Permission denied")]

theorem lookup_setKey_same (c : Config) (k : String) (v : Value) :
    lookupKey (setKey c k v) k = some v := by
  induction c with
  | nil => simp [setKey, lookupKey]
  | cons hd tl ih =>
      obtain ⟨k', v'⟩ := hd
      by_cases h : k' = k
      · simp [setKey, h, lookupKey]
      · simp [setKey, h, lookupKey, ih]

theorem lookup_setKey_other (c : Config) (k : String) (v : Value) (k' : String)
    (h : k ≠ k') : lookupKey (setKey c k v) k' = lookupKey c k' := by
  induction c with
  | nil => simp [setKey, lookupKey, h]
  | cons hd tl ih =>
      obtain ⟨k₀, v₀⟩ := hd
      by_cases h0 : k₀ = k
      · simp [setKey, h0, lookupKey, h]
      · simp [setKey, h0, lookupKey, ih]

theorem lookup_condSet_other (b : Bool) (c : Config) (k : String) (v : Value)
    (k' : String) (h : k ≠ k') :
    lookupKey (if b then setKey c k v else c) k' = lookupKey c k' := by
  cases b
  · rfl
  · simpa using lookup_setKey_other c k v k' h

theorem checkRequired_eq_find (c : Config) (ps : List String) :
    checkRequired c ps =
      match ps.find? (fun p => !(hasKey c p)) with
      | some p => Except.error (ValidationError.missingRequired p)
      | none => Except.ok () := by
  induction ps with
  | nil => rfl
  | cons p rest ih =>
      by_cases h : hasKey c p
      · simp [checkRequired, h, List.find?, ih]
      · simp [checkRequired, h, List.find?]

theorem checkRequired_ok (c : Config) (h : requiredPresent c = true) :
    checkRequired c required_params = Except.ok () := by
  simp [requiredPresent, required_params, List.all] at h
  obtain ⟨h1, h2, h3, h4, h5⟩ := h
  simp [checkRequired, required_params, h1, h2, h3, h4, h5]

theorem validate_spec (c : Config) (h : requiredPresent c = true) :
    validate_configuration c =
      if !(isNonBlankStr (getVal c "package_name")) then
        Except.error ValidationError.invalidPackageName
      else if (getVal c "test_repository_mode").truthy then
        if !(hasKey c "test_repository_path") then
          Except.error ValidationError.missingTestRepositoryPath
        else Except.ok ()
      else
        if !(isNonBlankStr (getVal c "repository_url")) then
          Except.error ValidationError.invalidRepositoryUrl
        else Except.ok () := by
  unfold validate_configuration
  rw [checkRequired_ok c h]

theorem lookup_merge_package_name (fc : Config) (cli : CliArgs) :
    lookupKey (merge_configs fc cli) "package_name" =
      match cli.package_name with
      | some s => if s.isEmpty then lookupKey fc "package_name" else some (Value.str s)
      | none => lookupKey fc "package_name" := by
  simp only [merge_configs]
  cases hpf : cli.package_filter <;> cases hof : cli.output_filename <;>
    cases hru : cli.repository_url <;> cases hpn : cli.package_name
  all_goals try simp [lookup_condSet_other, lookup_setKey_other, lookup_setKey_same]
  all_goals try split_ifs
  all_goals try simp [lookup_setKey_other, lookup_setKey_same]

theorem lookup_merge_repository_url (fc : Config) (cli : CliArgs) :
    lookupKey (merge_configs fc cli) "repository_url" =
      match cli.repository_url with
      | some s => if s.isEmpty then lookupKey fc "repository_url" else some (Value.str s)
      | none => lookupKey fc "repository_url" := by
  simp only [merge_configs]
  cases hpf : cli.package_filter <;> cases hof : cli.output_filename <;>
    cases hru : cli.repository_url <;> cases hpn : cli.package_name
  all_goals try simp [lookup_condSet_other, lookup_setKey_other, lookup_setKey_same]
  all_goals try split_ifs
  all_goals try simp [lookup_setKey_other, lookup_setKey_same]

theorem lookup_merge_output_filename (fc : Config) (cli : CliArgs) :
    lookupKey (merge_configs fc cli) "output_filename" =
      match cli.output_filename with
      | some s => if s.isEmpty then lookupKey fc "output_filename" else some (Value.str s)
      | none => lookupKey fc "output_filename" := by
  simp only [merge_configs]
  cases hpf : cli.package_filter <;> cases hof : cli.output_filename <;>
    cases hru : cli.repository_url <;> cases hpn : cli.package_name
  all_goals try simp [lookup_condSet_other, lookup_setKey_other, lookup_setKey_same]
  all_goals try split_ifs
  all_goals try simp [lookup_setKey_other, lookup_setKey_same]

theorem lookup_merge_package_filter (fc : Config) (cli : CliArgs) :
    lookupKey (merge_configs fc cli) "package_filter" =
      match cli.package_filter with
      | some s => some (Value.str s)
      | none => lookupKey fc "package_filter" := by
  simp only [merge_configs]
  cases hpf : cli.package_filter <;> cases hof : cli.output_filename <;>
    cases hru : cli.repository_url <;> cases hpn : cli.package_name
  all_goals try simp [lookup_condSet_other, lookup_setKey_other, lookup_setKey_same]
  all_goals try split_ifs
  all_goals try simp [lookup_setKey_other, lookup_setKey_same]

theorem lookup_merge_ascii_tree_output (fc : Config) (cli : CliArgs) :
    lookupKey (merge_configs fc cli) "ascii_tree_output" =
      (if cli.no_ascii_tree then some (Value.bool false)
       else if cli.ascii_tree then some (Value.bool true)
       else lookupKey fc "ascii_tree_output") := by
  simp only [merge_configs]
  cases hna : cli.no_ascii_tree <;> cases ha : cli.ascii_tree <;>
    cases hpf : cli.package_filter <;> cases hof : cli.output_filename <;>
    cases hru : cli.repository_url <;> cases hpn : cli.package_name
  all_goals try simp [lookup_condSet_other, lookup_setKey_other, lookup_setKey_same]
  all_goals try split_ifs
  all_goals try simp [lookup_setKey_other, lookup_setKey_same]

theorem lookup_merge_test_repository_mode (fc : Config) (cli : CliArgs) :
    lookupKey (merge_configs fc cli) "test_repository_mode" =
      (if cli.no_test_mode then some (Value.bool false)
       else if cli.test_mode then some (Value.bool true)
       else lookupKey fc "test_repository_mode") := by
  simp only [merge_configs]
  cases hnt : cli.no_test_mode <;> cases ht : cli.test_mode <;>
    cases hpf : cli.package_filter <;> cases hof : cli.output_filename <;>
    cases hru : cli.repository_url <;> cases hpn : cli.package_name
  all_goals try simp [lookup_condSet_other, lookup_setKey_other, lookup_setKey_same]
  all_goals try split_ifs
  all_goals try simp [lookup_setKey_other, lookup_setKey_same]

theorem lookup_merge_other (fc : Config) (cli : CliArgs) (k : String)
    (h : ¬ k ∈ overrideTargets) :
    lookupKey (merge_configs fc cli) k = lookupKey fc k := by
  simp [overrideTargets] at h
  obtain ⟨h1, h2, h3, h4, h5, h6⟩ := h
  have g1 : "package_name" ≠ k := fun e => h1 e.symm
  have g2 : "repository_url" ≠ k := fun e => h2 e.symm
  have g3 : "output_filename" ≠ k := fun e => h3 e.symm
  have g4 : "package_filter" ≠ k := fun e => h4 e.symm
  have g5 : "ascii_tree_output" ≠ k := fun e => h5 e.symm
  have g6 : "test_repository_mode" ≠ k := fun e => h6 e.symm
  simp only [merge_configs]
  cases hpf : cli.package_filter <;> cases hof : cli.output_filename <;>
    cases hru : cli.repository_url <;> cases hpn : cli.package_name
  all_goals try simp [lookup_condSet_other, lookup_setKey_other, g1, g2, g3, g4, g5, g6]
  all_goals try split_ifs
  all_goals try simp [lookup_setKey_other, g1, g2, g3, g4, g5, g6]

theorem fsLookup_fsWrite_same (fs : FS) (p : String) (d : FileData) :
    fsLookup (fsWrite fs p d) p = some d := by
  induction fs with
  | nil => simp [fsWrite, fsLookup]
  | cons hd tl ih =>
      obtain ⟨p', d'⟩ := hd
      by_cases h : p' = p
      · simp [fsWrite, h, fsLookup]
      · simp [fsWrite, h, fsLookup, ih]

theorem validate_setKey_irrelevant (c : Config) (k : String) (v : Value)
    (h : ¬ k ∈ validatedKeys) :
    validate_configuration (setKey c k v) = validate_configuration c := by
  simp [validatedKeys, required_params] at h
  obtain ⟨h1, h2, h3, h4, h5, h6⟩ := h
  simp only [validate_configuration, checkRequired, required_params, hasKey, getVal]
  simp only [lookup_setKey_other c k v "package_name" h1,
    lookup_setKey_other c k v "repository_url" h2,
    lookup_setKey_other c k v "test_repository_mode" h3,
    lookup_setKey_other c k v "output_filename" h4,
    lookup_setKey_other c k v "ascii_tree_output" h5,
    lookup_setKey_other c k v "test_repository_path" h6]

end CM

namespace CM

/-- Claim C1: merging a file-loaded mapping with empty CLI arguments (no flag
supplied, all booleans false, `package_filter` absent) returns the mapping
unchanged: `merge_configs fileConfig emptyCliArgs = fileConfig`. -/
theorem merge_emptyCliArgs_identity (fc : Config) :
    merge_configs fc emptyCliArgs = fc := rfl

/-- Claim C2: when at least one required field is absent, `validate_configuration`
fails with a missing-field error naming the first absent field in the fixed
check order of `required_params`, and reports exactly that one error. -/
theorem validate_missing_first_required (c : Config) (p : String)
    (h : required_params.find? (fun q => !(hasKey c q)) = some p) :
    validate_configuration c = Except.error (ValidationError.missingRequired p) := by
  have hc := checkRequired_eq_find c required_params
  rw [h] at hc
  unfold validate_configuration
  rw [hc]

/-- Witness for C2: a mapping missing both `package_name` and `output_filename`
has `package_name` as the first absent field and reports exactly that error. -/
theorem validate_missing_first_required_witness :
    required_params.find? (fun q => !(hasKey cMissingBoth q)) = some "package_name" ∧
    validate_configuration cMissingBoth =
      Except.error (ValidationError.missingRequired "package_name") :=
  ⟨rfl, validate_missing_first_required cMissingBoth "package_name" rfl⟩

/-- Counterexample to claim C3 as stated: `cBlankUrl` has all required fields, a
valid `package_name`, `test_repository_mode = false` and the non-empty string
`" "` as `repository_url`, yet validation rejects it with the invalid-URL
error, so "fails iff `repository_url` is not a non-empty string" is false. -/
theorem validate_nonempty_url_counterexample :
    getVal cBlankUrl "repository_url" = Value.str " " ∧ (" " : String) ≠ "" ∧
    validate_configuration cBlankUrl = Except.error ValidationError.invalidRepositoryUrl :=
  ⟨rfl, by decide, rfl⟩

/-- Claim C3 (amended): for a configuration with all required fields and a valid
`package_name`: with `test_repository_mode = true` and `test_repository_path`
absent, validation fails with the missing-`test_repository_path` error; with
`test_repository_mode = false`, validation fails with the invalid-URL error iff
`repository_url` is not a string that is non-empty after stripping whitespace,
and passes when it is such a string. -/
theorem validate_conditional_requirements (c : Config)
    (hreq : requiredPresent c = true)
    (hpn : isNonBlankStr (getVal c "package_name") = true) :
    (getVal c "test_repository_mode" = Value.bool true →
       hasKey c "test_repository_path" = false →
       validate_configuration c = Except.error ValidationError.missingTestRepositoryPath)
    ∧ (getVal c "test_repository_mode" = Value.bool false →
        ((validate_configuration c = Except.error ValidationError.invalidRepositoryUrl ↔
            isNonBlankStr (getVal c "repository_url") = false)
         ∧ (isNonBlankStr (getVal c "repository_url") = true →
             validate_configuration c = Except.ok ()))) := by
  have hv := validate_spec c hreq
  rw [hpn] at hv
  simp only [Bool.not_true, Bool.false_eq_true, if_false] at hv
  constructor
  · intro htm hpath
    rw [hv, htm]
    simp [Value.truthy, hpath]
  · intro htm
    rw [htm] at hv
    simp only [Value.truthy, if_false] at hv
    by_cases hu : isNonBlankStr (getVal c "repository_url")
    · simp [hu] at hv
      simp [hv, hu]
    · simp only [Bool.not_eq_true] at hu
      simp [hu] at hv
      simp [hv, hu]

/-- Witness for C3 (amended): with `test_repository_mode = true` and no
`test_repository_path` validation reports the missing-path error; with
`test_repository_mode = false` and a non-blank `repository_url` it passes. -/
theorem validate_conditional_requirements_witness :
    validate_configuration cTestMissing =
      Except.error ValidationError.missingTestRepositoryPath
    ∧ validate_configuration cOkConfig = Except.ok () :=
  ⟨(validate_conditional_requirements cTestMissing rfl rfl).1 rfl rfl,
   ((validate_conditional_requirements cOkConfig rfl rfl).2 rfl).2 rfl⟩

end CM

namespace CM

/-- Claim C4: the merged result carries the CLI value for `package_name`,
`repository_url` and `output_filename` exactly when the corresponding CLI value
is a non-empty string, and the file value otherwise. -/
theorem merge_string_override_precedence (fc : Config) (cli : CliArgs) :
    (lookupKey (merge_configs fc cli) "package_name" =
      match cli.package_name with
      | some s => if s.isEmpty then lookupKey fc "package_name" else some (Value.str s)
      | none => lookupKey fc "package_name")
    ∧ (lookupKey (merge_configs fc cli) "repository_url" =
      match cli.repository_url with
      | some s => if s.isEmpty then lookupKey fc "repository_url" else some (Value.str s)
      | none => lookupKey fc "repository_url")
    ∧ (lookupKey (merge_configs fc cli) "output_filename" =
      match cli.output_filename with
      | some s => if s.isEmpty then lookupKey fc "output_filename" else some (Value.str s)
      | none => lookupKey fc "output_filename") :=
  ⟨lookup_merge_package_name fc cli, lookup_merge_repository_url fc cli,
   lookup_merge_output_filename fc cli⟩

/-- Claim C5: the merged result's `package_filter` equals the CLI value whenever
the flag was explicitly supplied — including `some ""` — and the file value when
the flag is absent. -/
theorem merge_package_filter_override (fc : Config) (cli : CliArgs) :
    lookupKey (merge_configs fc cli) "package_filter" =
      match cli.package_filter with
      | some s => some (Value.str s)
      | none => lookupKey fc "package_filter" :=
  lookup_merge_package_filter fc cli

/-- Claim C6: writing the default configuration and loading it back from the
same path returns exactly the fixed default mapping, and that mapping passes
validation with no CLI overrides applied. -/
theorem create_default_then_load_roundtrip (fs : FS) (path : String) :
    load_configuration (create_default_config fs path) path = Except.ok default_config
    ∧ merge_configs default_config emptyCliArgs = default_config
    ∧ validate_configuration default_config = Except.ok () := by
  refine ⟨?_, rfl, rfl⟩
  unfold create_default_config load_configuration
  rw [fsLookup_fsWrite_same]

/-- Claim C7: `load_configuration` fails with the file-not-found error when the
path does not exist, with the distinct JSON-parse error carrying the decoder
message when the contents are malformed, with the generic wrapped error on any
other I/O failure, and otherwise returns the parsed mapping verbatim. -/
theorem load_configuration_error_taxonomy (fs : FS) (path : String) :
    (fsLookup fs path = none →
       load_configuration fs path =
         Except.error (LoadError.notFound
           ("Конфигурационный файл '" ++ path ++ "' не найден")))
    ∧ (∀ msg, fsLookup fs path = some (FileData.invalid msg) →
       load_configuration fs path =
         Except.error (LoadError.parse
           ("Ошибка парсинга JSON в файле '" ++ path ++ "': " ++ msg)))
    ∧ (∀ msg, fsLookup fs path = some (FileData.ioFail msg) →
       load_configuration fs path =
         Except.error (LoadError.other
           ("Неожиданная ошибка при загрузке конфигурации: " ++ msg)))
    ∧ (∀ c, fsLookup fs path = some (FileData.json c) →
       load_configuration fs path = Except.ok c) := by
  refine ⟨fun h => ?_, fun msg h => ?_, fun msg h => ?_, fun c h => ?_⟩ <;>
    simp [load_configuration, h]

/-- Witness for C7: one filesystem exhibiting all four outcomes of
`load_configuration`. -/
theorem load_configuration_error_taxonomy_witness :
    load_configuration demoFS "missing.json" =
      Except.error (LoadError.notFound "Конфигурационный файл 'missing.json' не найден")
    ∧ load_configuration demoFS "bad.json" =
      Except.error (LoadError.parse
        "Ошибка парсинга JSON в файле 'bad.json': Expecting value: line 1 column 1 (char 0)")
    ∧ load_configuration demoFS "locked.json" =
      Except.error (LoadError.other
        "Неожиданная ошибка при загрузке конфигурации: Permission denied")
    ∧ load_configuration demoFS "good.json" = Except.ok cOkConfig :=
  ⟨(load_configuration_error_taxonomy demoFS "missing.json").1 rfl,
   (load_configuration_error_taxonomy demoFS "bad.json").2.1 _ rfl,
   (load_configuration_error_taxonomy demoFS "locked.json").2.2.1 _ rfl,
   (load_configuration_error_taxonomy demoFS "good.json").2.2.2 _ rfl⟩

/-- Claim C8: `merge_configs` leaves every key outside the override targets with
its file value (so unknown extra keys are preserved), and an extra key that
`validate_configuration` does not inspect never changes the validation verdict. -/
theorem merge_validate_frame :
    (∀ (fc : Config) (cli : CliArgs) (k : String), ¬ k ∈ overrideTargets →
       lookupKey (merge_configs fc cli) k = lookupKey fc k)
    ∧ (∀ (c : Config) (k : String) (v : Value), ¬ k ∈ validatedKeys →
       validate_configuration (setKey c k v) = validate_configuration c) :=
  ⟨lookup_merge_other, validate_setKey_irrelevant⟩

/-- Witness for C8: the unknown key `extra_key` survives a merge with every
override supplied, and adding an unknown key does not change validation. -/
theorem merge_validate_frame_witness :
    lookupKey (merge_configs cOkConfig fullCliArgs) "extra_key" =
      lookupKey cOkConfig "extra_key"
    ∧ validate_configuration (setKey cFalsyInt "color" (Value.str "red")) =
      validate_configuration cFalsyInt :=
  ⟨merge_validate_frame.1 cOkConfig fullCliArgs "extra_key" (by decide),
   merge_validate_frame.2 cFalsyInt "color" (Value.str "red") (by decide)⟩

/-- Claim C9: `validate_configuration` never type-checks `test_repository_mode`:
once presence and `package_name` checks pass, any truthy value selects the
branch requiring `test_repository_path`, and any falsy value selects the branch
requiring a non-blank string `repository_url`. -/
theorem validate_truthy_branching (c : Config)
    (hreq : requiredPresent c = true)
    (hpn : isNonBlankStr (getVal c "package_name") = true) :
    ((getVal c "test_repository_mode").truthy = true →
       validate_configuration c =
         (if hasKey c "test_repository_path" then Except.ok ()
          else Except.error ValidationError.missingTestRepositoryPath))
    ∧ ((getVal c "test_repository_mode").truthy = false →
       validate_configuration c =
         (if isNonBlankStr (getVal c "repository_url") then Except.ok ()
          else Except.error ValidationError.invalidRepositoryUrl)) := by
  have hv := validate_spec c hreq
  rw [hpn] at hv
  simp only [Bool.not_true, Bool.false_eq_true, if_false] at hv
  constructor <;> intro h <;> rw [hv, h]
  · by_cases hk : hasKey c "test_repository_path" <;> simp [hk]
  · by_cases hu : isNonBlankStr (getVal c "repository_url") <;> simp [hu]

/-- Witness for C9: the truthy non-boolean string `"yes"` selects the
test-repository branch, and the falsy non-boolean `0` selects the URL branch. -/
theorem validate_truthy_branching_witness :
    validate_configuration cTruthyStr =
      Except.error ValidationError.missingTestRepositoryPath
    ∧ validate_configuration cFalsyInt = Except.ok () :=
  ⟨(validate_truthy_branching cTruthyStr rfl rfl).1 rfl,
   (validate_truthy_branching cFalsyInt rfl rfl).2 rfl⟩

/-- Claim C10: `validate_configuration` is read-only: the source only tests
membership and reads values, so in state-passing form the mapping accompanying
the verdict — success or error — is the input mapping itself. -/
theorem validate_read_only (c : Config) :
    (validate_configuration_st c).2 = c
    ∧ (validate_configuration_st c).1 = validate_configuration c :=
  ⟨rfl, rfl⟩

end CM
